import Mathlib

/-!
Shallow embedding of the `solar_panel_nl` repository: the unit calculator
(`src/utils/calculations.js`), the dataset loader
(`src/utils/spreadsheetReader.js`) and the address matcher / search handler
(`src/components/SolarPanelInfo.jsx`).

Strings are modelled as lists of characters (`Str`); JavaScript numbers are
modelled as exact rationals (`ℚ`), and — where `NaN` / `Infinity` matter, in
the loader's numeric parsing — as the four-case type `JsNum`.  The whitespace
class of the JavaScript regexes is modelled over the ASCII range.
-/

abbrev Str := List Char

def ofStr (s : String) : Str := s.data

/-- The ASCII part of the JavaScript regex class `\s` (also used by `trim`). -/
def jsWS (c : Char) : Bool :=
  c = ' ' || c = '\t' || c = '\n' || c = '\r' || c = '\x0b' || c = '\x0c'

def isQuoteChar (c : Char) : Bool := c = '"' || c = '\''

/-- One step of `replace(/[.,;:]/g, ' ')`. -/
def punctToSpace (c : Char) : Char :=
  if c = '.' || c = ',' || c = ';' || c = ':' then ' ' else c

/-- Drop a final quote character, if any (the `["']$` alternative). -/
def dropTrailingQuote (l : Str) : Str :=
  match l.reverse with
  | [] => []
  | c :: t => if isQuoteChar c then t.reverse else l

/-- `replace(/^["']|["']$/g, '')`: one leading and one trailing quote
character are removed (on a one-character string only the leading match
fires). -/
def stripEdgeQuotes (l : Str) : Str :=
  match l with
  | [] => []
  | c :: t => if isQuoteChar c then dropTrailingQuote t else dropTrailingQuote (c :: t)

def collapseAux : Bool → Str → Str
  | _, [] => []
  | prevWS, c :: t =>
    if jsWS c then
      if prevWS then collapseAux true t else ' ' :: collapseAux true t
    else c :: collapseAux false t

/-- `replace(/\s+/g, ' ')`: every maximal whitespace run becomes one space. -/
def collapseSpaces (l : Str) : Str := collapseAux false l

/-- `String.prototype.trim`. -/
def trimWS (l : Str) : Str :=
  ((l.dropWhile jsWS).reverse.dropWhile jsWS).reverse

/-- The helper `normalizeAddress` defined inside `handleSearch`
(`SolarPanelInfo.jsx`): strip one leading / one trailing quote, lowercase,
turn `. , ; :` into spaces, collapse whitespace runs, trim. -/
def normalizeAddress (addr : Str) : Str :=
  trimWS (collapseSpaces (((stripEdgeQuotes addr).map Char.toLower).map punctToSpace))

/-- The helper `normalizeAddress` defined inside `loadSpreadsheetFromUrl`
(`spreadsheetReader.js`); its body is the same regex chain as the matcher's
helper. -/
def loaderNormalizeAddress (addr : Str) : Str :=
  trimWS (collapseSpaces (((stripEdgeQuotes addr).map Char.toLower).map punctToSpace))



/-! ## Street / number extraction (`extractStreetAndNumber`, `SolarPanelInfo.jsx`) -/

/-- A character admitted by the street part `[a-z\s]` of the regex. -/
def streetChar (c : Char) : Bool := ('a' ≤ c && c ≤ 'z') || jsWS c

def isLowerAZ (c : Char) : Bool := 'a' ≤ c && c ≤ 'z'

/-- The house-number token `\d+[a-z]*`, matched greedily at the head of the
string; `none` when the head is not a digit. -/
def matchNumToken (l : Str) : Option Str :=
  let ds := l.takeWhile Char.isDigit
  if ds = [] then none
  else some (ds ++ (l.drop ds.length).takeWhile isLowerAZ)

/-- Backtracking attempt for `([a-z\s]+?)\s+(\d+[a-z]*)` with the street part
already holding `acc`: first try `\s+` then the number token at `rest`
(the lazy `+?` prefers the shortest street), else extend the street by one
class character.  A shorter `\s+` run than the maximal one can never be
followed by a digit, so only the maximal run is tried. -/
def headAttempt (acc rest : Str) : Option (Str × Str) :=
  if acc = [] then none
  else
    let ws := rest.takeWhile jsWS
    if ws = [] then none
    else
      match matchNumToken (rest.drop ws.length) with
      | some num => some (acc, num)
      | none => none

def tryGo : Str → Str → Option (Str × Str)
  | _, [] => none
  | acc, c :: t =>
    match headAttempt acc (c :: t) with
    | some r => some r
    | none => if streetChar c then tryGo (acc ++ [c]) t else none

/-- Leftmost match of `/([a-z\s]+?)\s+(\d+[a-z]*)/`, returning the two
capture groups. -/
def findStructuralMatch : Str → Option (Str × Str)
  | [] => none
  | c :: t =>
    match tryGo [] (c :: t) with
    | some r => some r
    | none => findStructuralMatch t

/-- Leftmost match of `/(\d+[a-z]*)/`. -/
def findNumberAnywhere : Str → Option Str
  | [] => none
  | c :: t => if c.isDigit then matchNumToken (c :: t) else findNumberAnywhere t

/-- `String.prototype.replace` with a plain-string pattern: remove the first
occurrence of `pat`. -/
def removeFirst : Str → Str → Str
  | [], _ => []
  | c :: t, pat =>
    if List.isPrefixOf pat (c :: t) then List.drop pat.length (c :: t)
    else c :: removeFirst t pat

/-- `extractStreetAndNumber` (`SolarPanelInfo.jsx`, `handleSearch` helper):
normalize, then regex-split into street and house number, with the two
fallbacks of the source. -/
def extractStreetAndNumber (addr : Str) : Str × Str :=
  let normalized := normalizeAddress addr
  match findStructuralMatch normalized with
  | some (a, num) => (collapseSpaces (trimWS a), num.map Char.toLower)
  | none =>
    match findNumberAnywhere normalized with
    | some num =>
      let number := num.map Char.toLower
      (trimWS (removeFirst normalized number), number)
    | none => (normalized, [])





/-! ## Similarity scoring (`calculateSimilarity`, `SolarPanelInfo.jsx`) -/

/-- `String.prototype.includes`: does `pat` occur as a contiguous substring
of the second argument? -/
def isSubstring (pat : Str) : Str → Bool
  | [] => pat.isEmpty
  | c :: t => List.isPrefixOf pat (c :: t) || isSubstring pat t

/-- The positional-or-membership character matches of the similarity score. -/
def countCharMatches (shorter longer : Str) : ℕ :=
  (List.range shorter.length).countP
    (fun i => shorter.getD i ' ' == longer.getD i ' ' || longer.contains (shorter.getD i ' '))

/-- The 3-gram windows of `shorter` that occur in `longer`
(`for (let i = 0; i < shorter.length - 2; i++)`). -/
def countCommonTrigrams (shorter longer : Str) : ℕ :=
  (List.range (shorter.length - 2)).countP
    (fun i => isSubstring ((shorter.drop i).take 3) longer)

/-- `calculateSimilarity` (`SolarPanelInfo.jsx`): 1 on equality, 0 on an empty
side, `min/max` of the lengths on containment, else the 0.7 / 0.3 blend of
character matches and 3-gram overlap. -/
def calculateSimilarity (s1 s2 : Str) : ℚ :=
  if s1 = s2 then 1
  else if s1.length = 0 ∨ s2.length = 0 then 0
  else if isSubstring s2 s1 || isSubstring s1 s2 then
    (min s1.length s2.length : ℚ) / (max s1.length s2.length : ℚ)
  else
    let longer := if s1.length > s2.length then s1 else s2
    let shorter := if s1.length > s2.length then s2 else s1
    ((countCharMatches shorter longer : ℚ) / (longer.length : ℚ)) * (7 / 10) +
      ((countCommonTrigrams shorter longer : ℚ) / (max (shorter.length - 2) 1 : ℚ)) * (3 / 10)




/-! ## JavaScript numbers for the loader (`JsNum`) and `parseFloat` -/

/-- A JavaScript number as the loader observes it: a finite (exact) value,
one of the two infinities, or `NaN`. -/
inductive JsNum where
  | fin (q : ℚ)
  | inf
  | negInf
  | nan
deriving DecidableEq

/-- JavaScript truthiness of a number: `0` and `NaN` are falsy. -/
def jsFalsy : JsNum → Bool
  | .fin q => q == 0
  | .nan => true
  | _ => false

/-- JavaScript `<` on numbers (`NaN` compares false with everything). -/
def jsLt : JsNum → JsNum → Bool
  | .fin a, .fin b => a < b
  | .fin _, .inf => true
  | .negInf, .fin _ => true
  | .negInf, .inf => true
  | _, _ => false

def jsFinite : JsNum → Bool
  | .fin _ => true
  | _ => false

def digitsToNat (ds : Str) : ℕ :=
  ds.foldl (fun a c => a * 10 + (c.toNat - 48)) 0

/-- The exponent part `[eE][+-]?DecimalDigits` of a decimal literal; an
invalid exponent is ignored (the longest valid prefix wins). -/
def applyExpTail (m : ℚ) (rest : Str) : ℚ :=
  match rest with
  | '+' :: rr =>
    let ds := rr.takeWhile Char.isDigit
    if ds = [] then m else m * (10 : ℚ) ^ digitsToNat ds
  | '-' :: rr =>
    let ds := rr.takeWhile Char.isDigit
    if ds = [] then m else m / (10 : ℚ) ^ digitsToNat ds
  | rr =>
    let ds := rr.takeWhile Char.isDigit
    if ds = [] then m else m * (10 : ℚ) ^ digitsToNat ds

def applyExponent (m : ℚ) (r : Str) : ℚ :=
  match r with
  | 'e' :: rest => applyExpTail m rest
  | 'E' :: rest => applyExpTail m rest
  | _ => m

/-- The unsigned part of `parseFloat`: the literal `Infinity`, or decimal
digits with optional fraction and exponent; `NaN` when no digits occur. -/
def parseFloatUnsigned (r : Str) (neg : Bool) : JsNum :=
  if List.isPrefixOf (ofStr "Infinity") r then (if neg then .negInf else .inf)
  else
    let ds := r.takeWhile Char.isDigit
    let r1 := r.drop ds.length
    let fs : Str :=
      match r1 with
      | '.' :: rr => rr.takeWhile Char.isDigit
      | _ => []
    let r2 : Str :=
      match r1 with
      | '.' :: rr => rr.drop fs.length
      | _ => r1
    if ds = [] ∧ fs = [] then .nan
    else
      let mantissa : ℚ :=
        (digitsToNat ds : ℚ) + (digitsToNat fs : ℚ) / (10 : ℚ) ^ fs.length
      let m := if neg then -mantissa else mantissa
      .fin (applyExponent m r2)

/-- JavaScript `parseFloat`, idealised to exact rationals: leading whitespace
is skipped, an optional sign, then the longest valid decimal prefix (or the
`Infinity` literal); anything else gives `NaN`.  IEEE-754 rounding and
overflow of finite literals are below this model's abstraction. -/
def jsParseFloat (s : Str) : JsNum :=
  let t := s.dropWhile jsWS
  match t with
  | '+' :: r => parseFloatUnsigned r false
  | '-' :: r => parseFloatUnsigned r true
  | r => parseFloatUnsigned r false






/-! ## Dataset loader (`loadSpreadsheetFromUrl`, `spreadsheetReader.js`) -/

/-- One source row, with each semantic column already resolved through the
header-name fallback chain of the source (`row['Number of solar panels'] ||
row['Number of Solar Panels'] || row.panels`, etc.); `none` is a missing
cell, and a numeric cell stands for its string form. -/
structure RowCells where
  address : Str
  panelsCell : Option Str
  confidenceCell : Option Str
  annualOutputCell : Option Str
  kwpCell : Option Str
  kwhCell : Option Str
  availCell : Option Str
  avgOutCell : Option Str
deriving DecidableEq

/-- One loaded row of the lookup table. -/
structure InstallationRecord where
  panels : JsNum
  confidence : JsNum
  annualOutput : JsNum
  kwp : JsNum
  kwhPerKwpPerYear : JsNum
  availabilityFactor : JsNum
  avgPanelOutput : JsNum
  originalAddress : Str
deriving DecidableEq

/-- `parseFloat(cell || innerDefault) || dflt`: the inner `||` substitutes
`innerDefault` for a missing or empty cell, the outer one substitutes `dflt`
for a falsy (`NaN` or `0`) parse result. -/
def parseNumField (cell : Option Str) (innerDefault : Str) (dflt : ℚ) : JsNum :=
  let s : Str :=
    match cell with
    | none => innerDefault
    | some s => if s = [] then innerDefault else s
  let v := jsParseFloat s
  if jsFalsy v then .fin dflt else v

/-- `replace('%', '')` with a plain-string pattern: first `%` removed. -/
def removeFirstPct : Str → Str
  | [] => []
  | c :: t => if c = '%' then t else c :: removeFirstPct t

/-- Multiplication by 100 on a JavaScript number (`NaN` and the infinities
absorb it). -/
def jsTimes100 : JsNum → JsNum
  | .fin q => .fin (q * 100)
  | x => x

/-- The availability-factor parsing of the loader:
`parseFloat(str.replace('%','')) || 99`, then values strictly between 0 and 1
are rescaled by 100. -/
def parseAvailability (cell : Option Str) : JsNum :=
  let s : Str :=
    match cell with
    | none => []
    | some s => s
  let v := jsParseFloat (removeFirstPct s)
  let af := if jsFalsy v then JsNum.fin 99 else v
  if jsLt (.fin 0) af && jsLt af (.fin 1) then jsTimes100 af
  else af

/-- One iteration of the loader's `jsonData.forEach`: skip the row when the
address cell is falsy, else build the record keyed by the normalized
address. -/
def buildRecord (row : RowCells) : Option (Str × InstallationRecord) :=
  if row.address = [] then none
  else
    some (loaderNormalizeAddress row.address,
      { panels := parseNumField row.panelsCell (ofStr "0") 0
        confidence := parseNumField row.confidenceCell (ofStr "0") 0
        annualOutput := parseNumField row.annualOutputCell (ofStr "0") 0
        kwp := parseNumField row.kwpCell (ofStr "0") 0
        kwhPerKwpPerYear := parseNumField row.kwhCell (ofStr "875") 875
        availabilityFactor := parseAvailability row.availCell
        avgPanelOutput := parseNumField row.avgOutCell (ofStr "435") 435
        originalAddress := row.address })

/-- `addressMap[key] = value` with JavaScript object semantics: a duplicate
key keeps its original position, last write wins. -/
def upsert (m : List (Str × InstallationRecord)) (k : Str) (v : InstallationRecord) :
    List (Str × InstallationRecord) :=
  if m.any (fun kv => kv.1 == k) then
    m.map (fun kv => if kv.1 == k then (k, v) else kv)
  else m ++ [(k, v)]

/-- The loader's whole `forEach`, producing the address map in insertion
order. -/
def loadTable (rows : List RowCells) : List (Str × InstallationRecord) :=
  rows.foldl
    (fun m row =>
      match buildRecord row with
      | some (k, v) => upsert m k v
      | none => m) []

/-! ## Address matcher (`handleSearch`, `SolarPanelInfo.jsx`) -/

/-- `value.originalAddress || key`: the structural tier extracts from the
stored original address, falling back to the key when it is falsy. -/
def keySource (key : Str) (r : InstallationRecord) : Str :=
  if r.originalAddress = [] then key else r.originalAddress

/-- The disqualification test of the structural tier: both sides carry a
house number and the numbers differ. -/
def numberMismatch (sp : Str × Str) (kv : Str × InstallationRecord) : Bool :=
  let kp := extractStreetAndNumber (keySource kv.1 kv.2)
  !sp.2.isEmpty && !kp.2.isEmpty && sp.2 != kp.2

/-- The candidate score of the structural tier: 0.9 when the key textually
contains the query's street (and its number, when there is one), else the
street similarity. -/
def candidateScore (sp : Str × Str) (kv : Str × InstallationRecord) : ℚ :=
  let kp := extractStreetAndNumber (keySource kv.1 kv.2)
  let containsMatch := isSubstring sp.1 kv.1 && (sp.2.isEmpty || isSubstring sp.2 kv.1)
  if containsMatch then 9 / 10 else calculateSimilarity sp.1 kp.1

/-- One iteration of the structural tier's `for (const [key, value] of
Object.entries(...))` loop, carried over the running `(bestScore,
bestMatch)`. -/
def structuralStep (sp : Str × Str) (acc : ℚ × Option (Str × InstallationRecord))
    (kv : Str × InstallationRecord) : ℚ × Option (Str × InstallationRecord) :=
  if numberMismatch sp kv then acc
  else
    let score := candidateScore sp kv
    if acc.1 < score ∧ (6 : ℚ) / 10 < score then (score, some kv) else acc

/-- The structural + fuzzy tier: best strictly-improving candidate above the
0.6 threshold. -/
def structuralMatch (sp : Str × Str) (table : List (Str × InstallationRecord)) :
    Option (Str × InstallationRecord) :=
  (table.foldl (structuralStep sp) (0, none)).2

/-- The last-resort tier's predicate over a key: equal extracted numbers with
street similarity above 0.5, else mutual-substring containment with the
normalized query. -/
def fallbackPred (query nq key : Str) : Bool :=
  let sp := extractStreetAndNumber query
  let kp := extractStreetAndNumber key
  if !sp.2.isEmpty && !kp.2.isEmpty && sp.2 == kp.2 then
    decide ((1 : ℚ) / 2 < calculateSimilarity sp.1 kp.1)
  else
    isSubstring nq key || isSubstring key nq

/-- JavaScript object property lookup on the table. -/
def lookupKey (table : List (Str × InstallationRecord)) (k : Str) :
    Option InstallationRecord :=
  (table.find? (fun kv => kv.1 == k)).map (fun kv => kv.2)

/-- The three matching tiers of `handleSearch`: exact key lookup of the
normalized query, then the structural + fuzzy scan, then the substring
fallback over `Object.keys(...).find(...)`.  Returns the matched key and
record. -/
def matchAddress (query : Str) (table : List (Str × InstallationRecord)) :
    Option (Str × InstallationRecord) :=
  let nq := normalizeAddress query
  match lookupKey table nq with
  | some r => some (nq, r)
  | none =>
    let sp := extractStreetAndNumber query
    match structuralMatch sp table with
    | some kv => some kv
    | none =>
      match table.find? (fun kv => fallbackPred query nq kv.1) with
      | some kv => some kv
      | none => none

/-- A throwaway record for concrete test tables. -/
def mkRec (orig : Str) : InstallationRecord :=
  { panels := .fin 10, confidence := .fin 5, annualOutput := .fin 0
    kwp := .fin 0, kwhPerKwpPerYear := .fin 875, availabilityFactor := .fin 99
    avgPanelOutput := .fin 435, originalAddress := orig }




/-! ## Unit calculator (`src/utils/calculations.js`) -/

/-- `calculateKwp(panels, avgPanelOutput)`: `none` models a missing
(`undefined`) argument; the guard `!panels || panels <= 0 || !avgPanelOutput
|| avgPanelOutput <= 0` returns 0. -/
def calculateKwp (panels avgPanelOutput : Option ℚ) : ℚ :=
  match panels, avgPanelOutput with
  | some p, some w => if p = 0 ∨ p ≤ 0 ∨ w = 0 ∨ w ≤ 0 then 0 else p * w / 1000
  | _, _ => 0

/-- `calculateAnnualOutput(kwp, kwhPerKwpPerYear, availabilityFactor)` with
its three sequential zero-guards. -/
def calculateAnnualOutput (kwp kwhPerKwpPerYear availabilityFactor : Option ℚ) : ℚ :=
  match kwp, kwhPerKwpPerYear, availabilityFactor with
  | some k, some y, some a =>
    if k = 0 ∨ k ≤ 0 then 0
    else if y = 0 ∨ y ≤ 0 then 0
    else if a = 0 ∨ a ≤ 0 then 0
    else k * y * (a / 100)
  | _, _, _ => 0

/-- The destructured parameter object of `calculateSolarPanelOutput`;
`none` in the last two fields models an omitted property, picking up the
destructuring defaults 875 and 99. -/
structure SolarParams where
  panels : Option ℚ
  avgPanelOutput : Option ℚ
  kwhPerKwpPerYear : Option ℚ
  availabilityFactor : Option ℚ

/-- `calculateSolarPanelOutput`: compose the two calculators, defaulting
`kwhPerKwpPerYear` to 875 and `availabilityFactor` to 99 when omitted.
Returns `(kwp, annualOutput)`. -/
def calculateSolarPanelOutput (ps : SolarParams) : ℚ × ℚ :=
  let kwhPerKwpPerYear := ps.kwhPerKwpPerYear.getD 875
  let availabilityFactor := ps.availabilityFactor.getD 99
  let kwp := calculateKwp ps.panels ps.avgPanelOutput
  let annualOutput :=
    calculateAnnualOutput (some kwp) (some kwhPerKwpPerYear) (some availabilityFactor)
  (kwp, annualOutput)

/-! ## Search-handler state (`App`, embedded in `SolarPanelInfo.jsx`) -/

/-- The React state touched by `handleSearch`. -/
structure AppState where
  address : Str
  solarPanelData : Option InstallationRecord
  coordinates : ℚ × ℚ
  loading : Bool
  error : Option Str
  spreadsheetData : List (Str × InstallationRecord)
deriving DecidableEq

def dataLoadingError : Str :=
  ofStr "Solar panel data is still loading. Please wait a moment and try again."

def notFoundError : Str :=
  ofStr "The address is not available in this dataset."

/-- One run of `handleSearch` for a submitted query, with the outcome of the
geocoding collaborator passed in (`none` models a rejected geocode promise).
The `finally` clause clears `loading` in every branch. -/
def handleSearch (st : AppState) (query : Str) (geo : Option (ℚ × ℚ)) : AppState :=
  let st1 := { st with loading := true, error := none, address := query,
                       solarPanelData := none }
  if st1.spreadsheetData.length = 0 then
    { st1 with error := some dataLoadingError, loading := false }
  else
    match matchAddress query st1.spreadsheetData with
    | some (_, data) =>
      match geo with
      | some coords =>
        { st1 with coordinates := coords, solarPanelData := some data,
                   error := none, loading := false }
      | none =>
        { st1 with solarPanelData := some data, error := none, loading := false }
    | none =>
      { st1 with error := some notFoundError, loading := false }

/-! ## Concrete fixtures and auxiliary predicates for the claim theorems -/

def streetX7Table : List (Str × InstallationRecord) :=
  [(ofStr "street_x 7", mkRec (ofStr "street_x 7"))]

/-- A row whose panel-count cell holds the text `Infinity`. -/
def infinityRow : RowCells :=
  { address := ofStr "a", panelsCell := some (ofStr "Infinity"),
    confidenceCell := none, annualOutputCell := none, kwpCell := none,
    kwhCell := none, availCell := none, avgOutCell := none }

def st0 : AppState :=
  { address := [], solarPanelData := none, coordinates := (52, 5),
    loading := false, error := none,
    spreadsheetData := [(ofStr "a 1", mkRec (ofStr "a 1"))] }

/-- The seven numeric fields of a record, none of them `NaN`. -/
def recNoNaN (r : InstallationRecord) : Prop :=
  r.panels ≠ .nan ∧ r.confidence ≠ .nan ∧ r.annualOutput ≠ .nan ∧
    r.kwp ≠ .nan ∧ r.kwhPerKwpPerYear ≠ .nan ∧ r.availabilityFactor ≠ .nan ∧
    r.avgPanelOutput ≠ .nan

/-! ## Claim theorems -/

/-- Claim C1: `calculateKwp` returns `panels * avgPanelOutput / 1000` when both
arguments are positive, and 0 whenever either argument is missing, zero, or
negative; being a total function of its two (optional) arguments it never
raises. -/
theorem c1_calculateKwp_spec (p w : ℚ) :
    (0 < p → 0 < w → calculateKwp (some p) (some w) = p * w / 1000) ∧
    (p ≤ 0 → ∀ w', calculateKwp (some p) w' = 0) ∧
    (w ≤ 0 → ∀ p', calculateKwp p' (some w) = 0) ∧
    calculateKwp none (some w) = 0 ∧
    calculateKwp (some p) none = 0 ∧
    calculateKwp none none = 0 := by
  refine ⟨?_, ?_, ?_, rfl, rfl, rfl⟩
  · intro hp hw
    have : ¬ (p = 0 ∨ p ≤ 0 ∨ w = 0 ∨ w ≤ 0) := by
      push_neg
      exact ⟨hp.ne', hp, hw.ne', hw⟩
    simp only [calculateKwp, if_neg this]
  · intro hp w'
    cases w' with
    | none => rfl
    | some w'' => simp only [calculateKwp, if_pos (Or.inr (Or.inl hp))]
  · intro hw p'
    cases p' with
    | none => rfl
    | some p'' =>
      simp only [calculateKwp, if_pos (Or.inr (Or.inr (Or.inr hw)))]

/-- Witness for C1 at concrete inputs. -/
theorem c1_witness :
    calculateKwp (some 10) (some 435) = 10 * 435 / 1000 ∧
      calculateKwp (some (-1)) (some 435) = 0 ∧
      calculateKwp (some 10) (some 0) = 0 := by
  refine ⟨(c1_calculateKwp_spec 10 435).1 (by norm_num) (by norm_num),
    (c1_calculateKwp_spec (-1) 435).2.1 (by norm_num) (some 435),
    (c1_calculateKwp_spec 10 0).2.2.1 (by norm_num) (some 10)⟩

/-- Claim C2: `calculateAnnualOutput` returns `kwp * kwhPerKwpPerYear *
(availabilityFactor / 100)` when all three arguments are positive and 0 when
any is missing, zero, or negative; and `calculateSolarPanelOutput` composes
`calculateKwp` with `calculateAnnualOutput`, defaulting the yield factor to
875 and the availability factor to 99 when those parameters are omitted. -/
theorem c2_calculateAnnualOutput_compose_spec (k y a : ℚ) (ps : SolarParams) :
    (0 < k → 0 < y → 0 < a →
      calculateAnnualOutput (some k) (some y) (some a) = k * y * (a / 100)) ∧
    (k ≤ 0 → ∀ y' a', calculateAnnualOutput (some k) y' a' = 0) ∧
    (y ≤ 0 → ∀ k' a', calculateAnnualOutput k' (some y) a' = 0) ∧
    (a ≤ 0 → ∀ k' y', calculateAnnualOutput k' y' (some a) = 0) ∧
    calculateAnnualOutput none (some y) (some a) = 0 ∧
    calculateAnnualOutput (some k) none (some a) = 0 ∧
    calculateAnnualOutput (some k) (some y) none = 0 ∧
    calculateSolarPanelOutput ps =
      (calculateKwp ps.panels ps.avgPanelOutput,
        calculateAnnualOutput (some (calculateKwp ps.panels ps.avgPanelOutput))
          (some (ps.kwhPerKwpPerYear.getD 875))
          (some (ps.availabilityFactor.getD 99))) ∧
    calculateSolarPanelOutput
        { panels := ps.panels, avgPanelOutput := ps.avgPanelOutput,
          kwhPerKwpPerYear := none, availabilityFactor := none } =
      (calculateKwp ps.panels ps.avgPanelOutput,
        calculateAnnualOutput (some (calculateKwp ps.panels ps.avgPanelOutput))
          (some 875) (some 99)) := by
  refine ⟨?_, ?_, ?_, ?_, rfl, rfl, rfl, rfl, rfl⟩
  · intro hk hy ha
    simp only [calculateAnnualOutput,
      if_neg (by push_neg; exact ⟨hk.ne', hk⟩ :
        ¬ (k = 0 ∨ k ≤ 0)),
      if_neg (by push_neg; exact ⟨hy.ne', hy⟩ :
        ¬ (y = 0 ∨ y ≤ 0)),
      if_neg (by push_neg; exact ⟨ha.ne', ha⟩ :
        ¬ (a = 0 ∨ a ≤ 0))]
  · intro hk y' a'
    cases y' with
    | none => cases a' <;> rfl
    | some y'' =>
      cases a' with
      | none => rfl
      | some a'' => simp only [calculateAnnualOutput, if_pos (Or.inr hk)]
  · intro hy k' a'
    cases k' with
    | none => cases a' <;> rfl
    | some k'' =>
      cases a' with
      | none => rfl
      | some a'' =>
        simp only [calculateAnnualOutput]
        by_cases h : k'' = 0 ∨ k'' ≤ 0
        · rw [if_pos h]
        · rw [if_neg h, if_pos (Or.inr hy)]
  · intro ha k' y'
    cases k' with
    | none => cases y' <;> rfl
    | some k'' =>
      cases y' with
      | none => rfl
      | some y'' =>
        simp only [calculateAnnualOutput]
        by_cases h : k'' = 0 ∨ k'' ≤ 0
        · rw [if_pos h]
        · rw [if_neg h]
          by_cases h2 : y'' = 0 ∨ y'' ≤ 0
          · rw [if_pos h2]
          · rw [if_neg h2, if_pos (Or.inr ha)]

/-- Witness for C2 at concrete inputs. -/
theorem c2_witness :
    calculateAnnualOutput (some 5) (some 875) (some 100) = 5 * 875 * (100 / 100) ∧
      calculateAnnualOutput (some 0) (some 875) (some 99) = 0 ∧
      calculateSolarPanelOutput
          { panels := some 15, avgPanelOutput := some 435,
            kwhPerKwpPerYear := none, availabilityFactor := none } =
        (calculateKwp (some 15) (some 435),
          calculateAnnualOutput (some (calculateKwp (some 15) (some 435)))
            (some 875) (some 99)) := by
  have h := c2_calculateAnnualOutput_compose_spec 5 875 100
    { panels := some 15, avgPanelOutput := some 435,
      kwhPerKwpPerYear := none, availabilityFactor := none }
  have h0 := c2_calculateAnnualOutput_compose_spec 0 875 99
    { panels := some 15, avgPanelOutput := some 435,
      kwhPerKwpPerYear := none, availabilityFactor := none }
  exact ⟨h.1 (by norm_num) (by norm_num) (by norm_num),
    h0.2.1 le_rfl (some 875) (some 99),
    h.2.2.2.2.2.2.2.2⟩

/-- Claim C3 counterexample: on the spec's own test input, with surrounding
spaces, the quote characters are not stripped (quote removal runs before
trimming), so the result is not `main st 12`. -/
theorem c3_counterexample :
    normalizeAddress (ofStr " \"Main St. 12\" ") ≠ ofStr "main st 12" := by decide

/-- Claim C3 (amended): the normalization lowercases, replaces `. , ; :` by
spaces, collapses whitespace runs and trims, but strips quote characters
only when they are the very first / last characters of the raw input; so
`"Main St. 12"` without surrounding spaces normalizes to `main st 12`, while
the spec's padded input keeps its quotes and yields `"main st 12"`. -/
theorem c3_normalize_steps :
    normalizeAddress (ofStr "\"Main St. 12\"") = ofStr "main st 12" ∧
      normalizeAddress (ofStr " \"Main St. 12\" ") = ofStr "\"main st 12\"" ∧
      normalizeAddress (ofStr "  A,b;C:d.e  f ") = ofStr "a b c d e f" := by
  decide

/-- Claim C4: the loader's `normalizeAddress` and the matcher's `normalizeAddress`
are extensionally equal (their source bodies are the same regex chain). -/
theorem c4_loader_matcher_normalize_agree :
    ∀ s : Str, loaderNormalizeAddress s = normalizeAddress s := fun _ => rfl

/-- Any entry the structural tier can hold as its running best is free of a
number mismatch; the skip (`continue`) branch never updates the
accumulator. -/
theorem structural_fold_no_mismatch (sp : Str × Str)
    (table : List (Str × InstallationRecord)) :
    ∀ acc : ℚ × Option (Str × InstallationRecord),
      (∀ kv, acc.2 = some kv → numberMismatch sp kv = false) →
      ∀ kv, (table.foldl (structuralStep sp) acc).2 = some kv →
        numberMismatch sp kv = false := by
  induction table with
  | nil => intro acc hacc kv h; exact hacc kv h
  | cons hd tl ih =>
    intro acc hacc kv h
    rw [List.foldl_cons] at h
    refine ih (structuralStep sp acc hd) ?_ kv h
    intro kv' h'
    unfold structuralStep at h'
    by_cases hm : numberMismatch sp hd
    · rw [if_pos hm] at h'
      exact hacc kv' h'
    · rw [if_neg hm] at h'
      by_cases hc : acc.1 < candidateScore sp hd ∧ (6 : ℚ) / 10 < candidateScore sp hd
      · rw [if_pos hc] at h'
        cases h'
        simpa using hm
      · rw [if_neg hc] at h'
        exact hacc kv' h'

unseal Rat.mul Rat.inv Rat.add Rat.sub in
/-- Claim C5: the structural + fuzzy tier never selects an entry whose extracted
house number is present and differs from the query's; and for the table
keyed `street_x 7` a query with the same street text but number 8 is matched
by no tier at all. -/
theorem c5_number_mismatch_disqualifies (sp : Str × Str)
    (table : List (Str × InstallationRecord)) (kv : Str × InstallationRecord) :
    (structuralMatch sp table = some kv → numberMismatch sp kv = false) ∧
      matchAddress (ofStr "street_x 8") streetX7Table = none := by
  constructor
  · intro h
    refine structural_fold_no_mismatch sp table (0, none) ?_ kv h
    intro kv' h'
    simp at h'
  · decide

unseal Rat.mul Rat.inv Rat.add Rat.sub in
/-- Witness for C5: a concrete structural-tier selection, shown
mismatch-free by the theorem, next to the concrete non-match. -/
theorem c5_witness :
    numberMismatch (extractStreetAndNumber (ofStr "main street 12"))
        (ofStr "main st 12", mkRec (ofStr "Main St. 12")) = false ∧
      matchAddress (ofStr "street_x 8") streetX7Table = none := by
  have h := c5_number_mismatch_disqualifies
    (extractStreetAndNumber (ofStr "main street 12"))
    [(ofStr "main st 12", mkRec (ofStr "Main St. 12"))]
    (ofStr "main st 12", mkRec (ofStr "Main St. 12"))
  exact ⟨h.1 (by decide), h.2⟩

/-- Claim C6: a structural-tier candidate scoring exactly 0.6 is rejected (the
acceptance test is strictly greater than the 0.6 threshold), while a sole
candidate scoring 0.61 (past the failed exact lookup, without a number
mismatch) is accepted. -/
theorem c6_threshold_strict (sp : Str × Str) (acc : ℚ × Option (Str × InstallationRecord))
    (kv : Str × InstallationRecord) (q : Str) (kv' : Str × InstallationRecord) :
    (candidateScore sp kv = 6 / 10 → structuralStep sp acc kv = acc) ∧
      (lookupKey [kv'] (normalizeAddress q) = none →
        numberMismatch (extractStreetAndNumber q) kv' = false →
        candidateScore (extractStreetAndNumber q) kv' = 61 / 100 →
        matchAddress q [kv'] = some kv') := by
  constructor
  · intro hs
    unfold structuralStep
    by_cases hm : numberMismatch sp kv
    · rw [if_pos hm]
    · rw [if_neg hm, hs, if_neg]
      rintro ⟨-, h⟩
      exact lt_irrefl _ h
  · intro h1 h2 h3
    have hstep : structuralStep (extractStreetAndNumber q) (0, none) kv' =
        (61 / 100, some kv') := by
      unfold structuralStep
      rw [if_neg (by simp [h2]), h3, if_pos (by norm_num)]
    unfold matchAddress
    simp only [h1, structuralMatch, List.foldl_cons, List.foldl_nil, hstep]

unseal Rat.mul Rat.inv Rat.add Rat.sub in
/-- Witness for C6: a concrete candidate scoring exactly 0.6 leaves the
accumulator unchanged, and a concrete sole candidate scoring 0.61 is
returned as the match. -/
theorem c6_witness :
    structuralStep (ofStr "abcdefg", ofStr "5") (0, none)
        (ofStr "bcdefxgxxx 5", mkRec (ofStr "bcdefxgxxx 5")) = (0, none) ∧
      matchAddress (ofStr "abcdefg 5")
          [(ofStr "abcxdxefgy 5", mkRec (ofStr "abcxdxefgy 5"))] =
        some (ofStr "abcxdxefgy 5", mkRec (ofStr "abcxdxefgy 5")) := by
  have h := c6_threshold_strict (ofStr "abcdefg", ofStr "5") (0, none)
    (ofStr "bcdefxgxxx 5", mkRec (ofStr "bcdefxgxxx 5"))
    (ofStr "abcdefg 5")
    (ofStr "abcxdxefgy 5", mkRec (ofStr "abcxdxefgy 5"))
  exact ⟨h.1 (by decide), h.2 (by decide) (by decide) (by decide)⟩

unseal Rat.mul Rat.inv Rat.add Rat.sub in
/-- Claim C7: a dataset availability cell whose text parses to a value strictly
between 0 and 1 is stored multiplied by 100; in particular `0.99` is stored
as 99. -/
theorem c7_availability_rescale (s : Str) (q : ℚ) :
    (jsParseFloat (removeFirstPct s) = .fin q → 0 < q → q < 1 →
      parseAvailability (some s) = .fin (q * 100)) ∧
      parseAvailability (some (ofStr "0.99")) = .fin 99 := by
  constructor
  · intro h h0 h1
    simp [parseAvailability, jsTimes100, h, jsFalsy, jsLt, h0.ne', h0, h1]
  · decide

unseal Rat.mul Rat.inv Rat.add Rat.sub in
/-- Witness for C7 at the cell text `0.99`. -/
theorem c7_witness :
    parseAvailability (some (ofStr "0.99")) = .fin (99 / 100 * 100) := by
  exact (c7_availability_rescale (ofStr "0.99") (99 / 100)).1 (by decide)
    (by norm_num) (by norm_num)

unseal Rat.mul Rat.inv Rat.add Rat.sub in
/-- Claim C10: an availability cell that parses to exactly 0 is replaced by the
default 99 (the parsed value goes through the falsy-or `|| 99`), so a
legitimate zero availability never survives loading. -/
theorem c10_zero_availability_defaults (s : Str) :
    (jsParseFloat (removeFirstPct s) = .fin 0 → parseAvailability (some s) = .fin 99) ∧
      parseAvailability (some (ofStr "0")) = .fin 99 := by
  constructor
  · intro h
    simp only [parseAvailability, h, jsFalsy]
    norm_num [jsLt]
  · decide

unseal Rat.mul Rat.inv Rat.add Rat.sub in
/-- Witness for C10 at the cell text `0`. -/
theorem c10_witness : parseAvailability (some (ofStr "0")) = .fin 99 :=
  (c10_zero_availability_defaults (ofStr "0")).1 (by decide)

theorem defaulted_ne_nan (v : JsNum) (d : ℚ) :
    (if jsFalsy v then JsNum.fin d else v) ≠ .nan := by
  cases v with
  | fin q => by_cases h : jsFalsy (.fin q) <;> simp [h]
  | inf => simp [jsFalsy]
  | negInf => simp [jsFalsy]
  | nan => simp [jsFalsy]

theorem scaled_ne_nan (af : JsNum) (c : Bool) (h : af ≠ .nan) :
    (if c then jsTimes100 af else af) ≠ .nan := by
  cases c with
  | false => simpa using h
  | true =>
    cases af with
    | fin q => simp [jsTimes100]
    | inf => simp [jsTimes100]
    | negInf => simp [jsTimes100]
    | nan => exact absurd rfl h

theorem parseNumField_ne_nan (cell : Option Str) (innerDefault : Str) (dflt : ℚ) :
    parseNumField cell innerDefault dflt ≠ .nan :=
  defaulted_ne_nan _ _

theorem parseAvailability_ne_nan (cell : Option Str) :
    parseAvailability cell ≠ .nan :=
  scaled_ne_nan _ _ (defaulted_ne_nan _ _)

theorem buildRecord_noNaN (row : RowCells) (k : Str) (r : InstallationRecord) :
    buildRecord row = some (k, r) → recNoNaN r := by
  unfold buildRecord
  by_cases ha : row.address = []
  · simp [ha]
  · rw [if_neg ha]
    intro h
    cases h
    exact ⟨parseNumField_ne_nan _ _ _, parseNumField_ne_nan _ _ _,
      parseNumField_ne_nan _ _ _, parseNumField_ne_nan _ _ _,
      parseNumField_ne_nan _ _ _, parseAvailability_ne_nan _,
      parseNumField_ne_nan _ _ _⟩

theorem upsert_mem (m : List (Str × InstallationRecord)) (k : Str)
    (v : InstallationRecord) (kv : Str × InstallationRecord) :
    kv ∈ upsert m k v → kv ∈ m ∨ kv.2 = v := by
  unfold upsert
  by_cases h : m.any (fun kv => kv.1 == k)
  · rw [if_pos h]
    intro hm
    rcases List.mem_map.mp hm with ⟨kv', hkv', he⟩
    by_cases hk : kv'.1 == k
    · rw [if_pos hk] at he
      right
      rw [← he]
    · rw [if_neg hk] at he
      left
      rw [← he]
      exact hkv'
  · rw [if_neg h]
    intro hm
    rcases List.mem_append.mp hm with hm | hm
    · exact Or.inl hm
    · right
      rcases List.mem_singleton.mp hm with rfl
      rfl

theorem loadTable_fold_noNaN (rows : List RowCells) :
    ∀ acc : List (Str × InstallationRecord),
      (∀ kv ∈ acc, recNoNaN kv.2) →
      ∀ kv ∈ rows.foldl
          (fun m row =>
            match buildRecord row with
            | some (k, v) => upsert m k v
            | none => m) acc,
        recNoNaN kv.2 := by
  induction rows with
  | nil => intro acc hacc kv h; exact hacc kv h
  | cons hd tl ih =>
    intro acc hacc kv h
    rw [List.foldl_cons] at h
    refine ih _ ?_ kv h
    intro kv' h'
    cases hb : buildRecord hd with
    | none => rw [hb] at h'; exact hacc kv' h'
    | some p =>
      rw [hb] at h'
      rcases upsert_mem acc p.1 p.2 kv' h' with hm | he
      · exact hacc kv' hm
      · rw [he]
        exact buildRecord_noNaN hd p.1 p.2 (by rw [hb])

/-- Claim C8 (amended): every record the loader produces has all seven numeric
fields distinct from `NaN` (and, being total fields of the record type,
never undefined); the claim's stronger "never infinite" fails, see the
counterexample. -/
theorem c8_loaded_fields_never_nan (rows : List RowCells) (k : Str)
    (r : InstallationRecord) :
    (k, r) ∈ loadTable rows → recNoNaN r := by
  intro h
  exact loadTable_fold_noNaN rows [] (by intro kv hkv; cases hkv) (k, r) h

unseal Rat.mul Rat.inv Rat.add Rat.sub in
/-- Claim C8 counterexample: `parseFloat('Infinity')` is `Infinity`, which is
truthy and therefore survives the `|| 0` default, so the loaded record's
`panels` field is not finite. -/
theorem c8_counterexample :
    (loadTable [infinityRow]).map (fun kv => jsFinite kv.2.panels) = [false] ∧
      (loadTable [infinityRow]).map (fun kv => kv.2.panels) = [JsNum.inf] := by
  decide

unseal Rat.mul Rat.inv Rat.add Rat.sub in
/-- Witness for C8 on a concrete loaded table (the `Infinity` row itself:
its record is infinite in `panels` but still `NaN`-free). -/
theorem c8_witness :
    recNoNaN
      { panels := JsNum.inf, confidence := .fin 0, annualOutput := .fin 0,
        kwp := .fin 0, kwhPerKwpPerYear := .fin 875,
        availabilityFactor := .fin 99, avgPanelOutput := .fin 435,
        originalAddress := ofStr "a" } :=
  c8_loaded_fields_never_nan [infinityRow] (ofStr "a") _ (by decide)

theorem matchAddress_nil (query : Str) : matchAddress query [] = none := rfl

/-- Claim C9: when the search matches a record and the geocoding call fails, the
matched record is still displayed and the error is cleared, while the map
coordinates keep their previous value; the search does not end in the
not-found state. -/
theorem c9_geocode_failure_keeps_record (st : AppState) (q k : Str)
    (r : InstallationRecord) :
    matchAddress q st.spreadsheetData = some (k, r) →
      (handleSearch st q none).solarPanelData = some r ∧
        (handleSearch st q none).error = none ∧
        (handleSearch st q none).coordinates = st.coordinates := by
  intro h
  have hne : st.spreadsheetData.length ≠ 0 := by
    intro he
    rw [List.length_eq_zero.mp he, matchAddress_nil] at h
    cases h
  unfold handleSearch
  rw [if_neg hne, h]
  exact ⟨rfl, rfl, rfl⟩

unseal Rat.mul Rat.inv Rat.add Rat.sub in
/-- Witness for C9: a concrete matched search with a failed geocode. -/
theorem c9_witness :
    (handleSearch st0 (ofStr "a 1") none).solarPanelData =
        some (mkRec (ofStr "a 1")) ∧
      (handleSearch st0 (ofStr "a 1") none).error = none ∧
      (handleSearch st0 (ofStr "a 1") none).coordinates = st0.coordinates :=
  c9_geocode_failure_keeps_record st0 (ofStr "a 1") (ofStr "a 1")
    (mkRec (ofStr "a 1")) (by decide)
